import Mathlib

/-!
# Verification of the srs-enb-ue charm reconciliation logic

Shallow embedding of `src/charm.py` (class `SrsLteCharm`): the stored state
record, the event handlers, the command builders, the status derivation and
the rendering of systemd units, together with proofs of the specified
properties of that code.

External collaborators (the `utils` module: `is_ipv4`, `service_active`,
`ip_from_iface`, `ip_from_default_iface`, and the supervisor wrappers) are
not part of the embedded source; following the spec they are abstracted
into an environment record, and the side-effecting calls the handlers make
are recorded as an ordered effect list.
-/

namespace Charm

/-- The persistent stored state of the charm, mirroring
`self._stored.set_default(...)` in `SrsLteCharm.__init__`.  Optional string
fields hold `none` for Python `None`. -/
structure CharmState where
  mme_addr : Option String
  bind_addr : Option String
  ue_usim_imsi : Option String
  ue_usim_k : Option String
  ue_usim_opc : Option String
  installed : Bool
  started : Bool
  ue_attached : Bool
deriving DecidableEq, Repr

/-- The static charm configuration as read through `self.config.get(key)`:
each option is either present (a string) or absent (Python `None`). -/
structure Config where
  enb_name : Option String
  enb_mcc : Option String
  enb_mnc : Option String
  enb_rf_device_name : Option String
  enb_rf_device_args : Option String
  ue_usim_algo : Option String
  ue_nas_apn : Option String
  ue_device_name : Option String
  ue_device_args : Option String
  bind_address_subnet : Option String
deriving DecidableEq, Repr

/-- Modelled from the spec: the external collaborator results consumed by
the handlers (spec section 6), provided by the `utils` module which is not
under `src/`: the IPv4 validity check (applied to the relation value, which
may be missing, hence `Option String`), the liveness answers of
`service_active` for the two managed services, the two address-resolver
calls, and the success or failure outcome of each supervisor call
(`svc_ok`).  Per the spec the supervisor calls return success/failure and
never abort the handler, so `svc_ok` is recorded but never consulted by the
handlers, exactly as `charm.py` discards the wrappers' return values. -/
structure Env where
  is_ipv4 : Option String → Bool
  enb_active : Bool
  ue_active : Bool
  ip_from_iface : String → Option String
  ip_from_default_iface : Option String
  svc_ok : String → Bool

/-- Unit status values the charm assigns (`ActiveStatus` /
`MaintenanceStatus` from `ops.model`). -/
inductive Status where
  | active (msg : String)
  | maintenance (msg : String)
deriving DecidableEq, Repr

/-- Python truthiness of an optional string (`if self._stored.mme_addr:`):
`None` and the empty string are falsy. -/
def truthy : Option String → Bool
  | none => false
  | some s => !s.isEmpty

/-- Python f-string interpolation of an optional string: `None` prints as
the text `None`. -/
def optStr : Option String → String
  | none => "None"
  | some s => s

def SRC_PATH : String := "/srsLTE"
def BUILD_PATH : String := "/build"
def CONFIG_PATH : String := "/config"
def SERVICE_PATH : String := "/service"

/-- The `CONFIG_PATHS` dictionary of `charm.py`, as a function on its keys. -/
def CONFIG_PATHS : String → String
  | "enb" => CONFIG_PATH ++ "/enb.conf"
  | "drb" => CONFIG_PATH ++ "/drb.conf"
  | "rr" => CONFIG_PATH ++ "/rr.conf"
  | "sib" => CONFIG_PATH ++ "/sib.conf"
  | "sib.mbsfn" => CONFIG_PATH ++ "/sib.mbsfn.conf"
  | "ue" => CONFIG_PATH ++ "/ue.conf"
  | _ => ""

def SRS_ENB_SERVICE : String := "srsenb"
def SRS_ENB_BINARY : String := BUILD_PATH ++ "/srsenb/src/srsenb"
def SRS_ENB_SERVICE_TEMPLATE : String := "./templates/srsenb.service"
def SRS_ENB_SERVICE_PATH : String := "/etc/systemd/system/srsenb.service"

def SRS_UE_SERVICE : String := "srsue"
def SRS_UE_BINARY : String := BUILD_PATH ++ "/srsue/src/srsue"
def SRS_UE_SERVICE_TEMPLATE : String := "./templates/srsue.service"
def SRS_UE_SERVICE_PATH : String := "/etc/systemd/system/srsue.service"

def GIT_REPO : String := "https://github.com/srsLTE/srsLTE.git"
def GIT_REPO_TAG : String := "release_20_10"

def SRS_ENB_UE_BUILD_COMMAND : String :=
  "cd " ++ BUILD_PATH ++ " && cmake " ++ SRC_PATH ++ " && make -j `nproc` srsenb srsue"

def APT_REQUIREMENTS : List String :=
  ["git", "libzmq3-dev", "cmake", "build-essential", "libmbedtls-dev",
   "libboost-program-options-dev", "libsctp-dev", "libconfig++-dev",
   "libfftw3-dev", "net-tools"]

/-- Modelled from the spec: the observable side effects a handler performs
through the external collaborators (spec sections 4 and 6), recorded in
order.  `configure_service` covers `_configure_service`: rendering the
template with the given command and writing it to the service path followed
by a systemd daemon reload. -/
inductive Effect where
  | update_apt_cache
  | install_apt_package (package : String)
  | reset_environment
  | git_clone (repo output_folder branch : String)
  | shell (cmd : String)
  | copy_files
  | configure_service (command service_template service_path : String)
  | service_enable (service : String)
  | service_start (service : String)
  | service_stop (service : String)
  | service_restart (service : String)
  | set_status (s : Status)
  | action_result (status message : String)
deriving DecidableEq, Repr

/-- Argument list built by `_get_srsenb_command` (before `" ".join`). -/
def get_srsenb_args (st : CharmState) (cfg : Config) : List String :=
  [SRS_ENB_BINARY]
    ++ (if truthy st.mme_addr then
          ["--enb.mme_addr=" ++ optStr st.mme_addr] else [])
    ++ (if truthy st.bind_addr then
          ["--enb.gtp_bind_addr=" ++ optStr st.bind_addr,
           "--enb.s1c_bind_addr=" ++ optStr st.bind_addr] else [])
    ++ ["--enb.name=" ++ optStr cfg.enb_name,
        "--enb.mcc=" ++ optStr cfg.enb_mcc,
        "--enb.mnc=" ++ optStr cfg.enb_mnc,
        "--enb_files.rr_config=" ++ CONFIG_PATHS "rr",
        "--enb_files.sib_config=" ++ CONFIG_PATHS "sib",
        "--enb_files.drb_config=" ++ CONFIG_PATHS "drb",
        CONFIG_PATHS "enb",
        "--rf.device_name=" ++ optStr cfg.enb_rf_device_name,
        "--rf.device_args=" ++ optStr cfg.enb_rf_device_args]

/-- `_get_srsenb_command`: the joined command string. -/
def get_srsenb_command (st : CharmState) (cfg : Config) : String :=
  String.intercalate " " (get_srsenb_args st cfg)

/-- Argument list built by `_get_srsue_command` (before `" ".join`). -/
def get_srsue_args (st : CharmState) (cfg : Config) : List String :=
  [SRS_UE_BINARY]
    ++ (if truthy st.ue_usim_imsi then
          ["--usim.imsi=" ++ optStr st.ue_usim_imsi,
           "--usim.k=" ++ optStr st.ue_usim_k,
           "--usim.opc=" ++ optStr st.ue_usim_opc] else [])
    ++ ["--usim.algo=" ++ optStr cfg.ue_usim_algo,
        "--nas.apn=" ++ optStr cfg.ue_nas_apn,
        "--rf.device_name=" ++ optStr cfg.ue_device_name,
        "--rf.device_args=" ++ optStr cfg.ue_device_args,
        CONFIG_PATHS "ue"]

/-- `_get_srsue_command`: the joined command string. -/
def get_srsue_command (st : CharmState) (cfg : Config) : String :=
  String.intercalate " " (get_srsue_args st cfg)

/-- `_get_bind_address`: resolve the bind address from the configured
subnet hint (Python truthiness) or the default interface. -/
def get_bind_address (env : Env) (cfg : Config) : Option String :=
  if truthy cfg.bind_address_subnet then
    env.ip_from_iface (optStr cfg.bind_address_subnet)
  else
    env.ip_from_default_iface

/-- `_get_current_status`: derives the unit status text from the stored
state and the live service states (`service_active`). -/
def get_current_status (env : Env) (st : CharmState) : Status :=
  let status_msg := ""
  let status_msg := if st.installed then "SW installed." else status_msg
  let status_msg :=
    if st.started && env.enb_active then
      let m := "srsenb started. "
      let m := if truthy st.mme_addr then
                 m ++ ("mme: " ++ optStr st.mme_addr ++ ". ") else m
      let m := if st.ue_attached && env.ue_active then
                 m ++ "ue attached. " else m
      m
    else status_msg
  Status.active status_msg

/-- The effects of `_configure_srsenb_service`. -/
def configure_srsenb_service (st : CharmState) (cfg : Config) : List Effect :=
  [Effect.configure_service (get_srsenb_command st cfg)
      SRS_ENB_SERVICE_TEMPLATE SRS_ENB_SERVICE_PATH]

/-- The effects of `_configure_srsue_service`. -/
def configure_srsue_service (st : CharmState) (cfg : Config) : List Effect :=
  [Effect.configure_service (get_srsue_command st cfg)
      SRS_UE_SERVICE_TEMPLATE SRS_UE_SERVICE_PATH]

/-- `_on_install`: runs provisioning and sets `installed` (the only stored
field it touches). -/
def on_install (st : CharmState) (cfg : Config) : CharmState × List Effect :=
  ({ st with installed := true },
   [Effect.set_status (Status.maintenance "Installing apt packages"),
    Effect.update_apt_cache]
     ++ APT_REQUIREMENTS.map Effect.install_apt_package
     ++ [Effect.set_status (Status.maintenance "Preparing the environment"),
         Effect.reset_environment,
         Effect.set_status (Status.maintenance "Downloading srsLTE from Github"),
         Effect.git_clone GIT_REPO SRC_PATH GIT_REPO_TAG,
         Effect.set_status (Status.maintenance "Building srsLTE"),
         Effect.shell SRS_ENB_UE_BUILD_COMMAND,
         Effect.set_status (Status.maintenance "Generating configuration files"),
         Effect.copy_files,
         Effect.set_status (Status.maintenance "Generating systemd files")]
     ++ configure_srsenb_service st cfg
     ++ configure_srsue_service st cfg
     ++ [Effect.service_enable SRS_ENB_SERVICE])

/-- `_on_start`: starts the base-station service and records `started`. -/
def on_start (env : Env) (st : CharmState) : CharmState × List Effect :=
  ({ st with started := true },
   [Effect.set_status (Status.maintenance "Starting srsenb"),
    Effect.service_start SRS_ENB_SERVICE,
    Effect.set_status (get_current_status env { st with started := true })])

/-- `_on_stop`: resets the environment, stops the service, clears
`started`. -/
def on_stop (env : Env) (st : CharmState) : CharmState × List Effect :=
  ({ st with started := false },
   [Effect.reset_environment,
    Effect.service_stop SRS_ENB_SERVICE,
    Effect.set_status (get_current_status env { st with started := false })])

/-- `_on_config_changed`: recomputes the bind address, re-renders the
base-station unit and restarts it when `started`. -/
def on_config_changed (env : Env) (st : CharmState) (cfg : Config) :
    CharmState × List Effect :=
  let st' := { st with bind_addr := get_bind_address env cfg }
  (st',
   configure_srsenb_service st' cfg
     ++ (if st'.started then
           [Effect.set_status (Status.maintenance "Reloading srsenb"),
            Effect.service_restart SRS_ENB_SERVICE] else [])
     ++ [Effect.set_status (get_current_status env st')])

/-- `_on_update_status`. -/
def on_update_status (env : Env) (st : CharmState) : CharmState × List Effect :=
  (st, [Effect.set_status (get_current_status env st)])

/-- `_on_attach_ue_action`: stores the subscriber triple, re-renders and
restarts the UE service, sets `ue_attached`. -/
def on_attach_ue_action (env : Env) (st : CharmState) (cfg : Config)
    (imsi k opc : String) : CharmState × List Effect :=
  let st1 := { st with ue_usim_imsi := some imsi, ue_usim_k := some k,
                       ue_usim_opc := some opc }
  let st2 := { st1 with ue_attached := true }
  (st2,
   configure_srsue_service st1 cfg
     ++ [Effect.service_restart SRS_UE_SERVICE,
         Effect.set_status (get_current_status env st2),
         Effect.action_result "ok" "Attached successfully"])

/-- `_on_detach_ue_action`: clears the subscriber triple, stops and
re-renders the UE service, clears `ue_attached`. -/
def on_detach_ue_action (env : Env) (st : CharmState) (cfg : Config) :
    CharmState × List Effect :=
  let st1 := { st with ue_usim_imsi := none, ue_usim_k := none,
                       ue_usim_opc := none }
  let st2 := { st1 with ue_attached := false }
  (st2,
   [Effect.service_stop SRS_UE_SERVICE]
     ++ configure_srsue_service st1 cfg
     ++ [Effect.set_status (get_current_status env st2),
         Effect.action_result "ok" "Detached successfully"])

/-- `_on_remove_default_gw_action`. -/
def on_remove_default_gw_action (st : CharmState) : CharmState × List Effect :=
  (st, [Effect.shell "route del default",
        Effect.action_result "ok" "Default route removed!"])

/-- `_mme_relation_changed`: `data` is `none` when the triggering unit has
no entry in the relation data, and `some v` when it does, where `v` is the
result of looking up the `mme-addr` key (itself optional).  An address that
fails `is_ipv4` causes an early `return`: no mutation and no effect at
all. -/
def mme_relation_changed (env : Env) (st : CharmState) (cfg : Config)
    (data : Option (Option String)) : CharmState × List Effect :=
  match data with
  | none => (st, [Effect.set_status (get_current_status env st)])
  | some addr =>
      if env.is_ipv4 addr then
        let st' := { st with mme_addr := addr }
        (st',
         configure_srsenb_service st' cfg
           ++ (if st'.started then
                 [Effect.set_status (Status.maintenance "Reloading srsenb"),
                  Effect.service_restart SRS_ENB_SERVICE] else [])
           ++ [Effect.set_status (get_current_status env st')])
      else (st, [])

/-- The typed events the charm observes. -/
inductive Event where
  | install
  | start
  | stop
  | config_changed
  | update_status
  | attach_ue (imsi k opc : String)
  | detach_ue
  | remove_default_gw
  | mme_relation_changed (data : Option (Option String))
deriving DecidableEq, Repr

/-- One reconciliation pass: dispatch an event to its handler. -/
def step (env : Env) (cfg : Config) (st : CharmState) (e : Event) :
    CharmState × List Effect :=
  match e with
  | Event.install => on_install st cfg
  | Event.start => on_start env st
  | Event.stop => on_stop env st
  | Event.config_changed => on_config_changed env st cfg
  | Event.update_status => on_update_status env st
  | Event.attach_ue imsi k opc => on_attach_ue_action env st cfg imsi k opc
  | Event.detach_ue => on_detach_ue_action env st cfg
  | Event.remove_default_gw => on_remove_default_gw_action st
  | Event.mme_relation_changed data => mme_relation_changed env st cfg data

/-- The initial stored state established by `set_default` in `__init__`. -/
def initState : CharmState :=
  { mme_addr := none, bind_addr := none, ue_usim_imsi := none,
    ue_usim_k := none, ue_usim_opc := none, installed := false,
    started := false, ue_attached := false }

/-- States reachable from the initial state by any sequence of events,
under arbitrary (possibly varying) environments and configurations. -/
inductive Reachable : CharmState → Prop where
  | init : Reachable initState
  | next (env : Env) (cfg : Config) (st : CharmState) (e : Event) :
      Reachable st → Reachable (step env cfg st e).1

/-- States reachable when the start event is only ever delivered while
`installed` is true (the install-before-start discipline of the charm's
runtime). -/
inductive GuardedReachable : CharmState → Prop where
  | init : GuardedReachable initState
  | next (env : Env) (cfg : Config) (st : CharmState) (e : Event) :
      GuardedReachable st → (e = Event.start → st.installed = true) →
      GuardedReachable (step env cfg st e).1

/-- Whether an argument list contains a flag with the given
`--name=`-style marker: some argument starts with that marker. -/
def containsFlag (args : List String) (flag : String) : Bool :=
  args.any (fun a => flag.data.isPrefixOf a.data)

/-- One part of a systemd-unit template: literal text or a
double-braced placeholder reference. -/
inductive TmplPart where
  | text (s : String)
  | var (v : String)
deriving DecidableEq, Repr

/-- The substitution performed by `Template(template.read()).render(command=command)`
in `_configure_service`: jinja2 with its default `Undefined` replaces the
defined placeholder `command` by its value and every other (undefined)
placeholder by the empty string; it does not raise for an undefined
placeholder reference. -/
def renderTemplate : List TmplPart → String → String
  | [], _ => ""
  | TmplPart.text s :: rest, cmd => s ++ renderTemplate rest cmd
  | TmplPart.var v :: rest, cmd =>
      (if v == "command" then cmd else "") ++ renderTemplate rest cmd

/-- The literal text of a template with all placeholder parts erased. -/
def textOnly : List TmplPart → String
  | [] => ""
  | TmplPart.text s :: rest => s ++ textOnly rest
  | TmplPart.var _ :: rest => textOnly rest

/-- A concrete environment: no address is a valid IPv4 literal, the
base-station service is live, the UE service is not, the resolvers find
nothing, every supervisor call succeeds. -/
def env0 : Env :=
  { is_ipv4 := fun _ => false, enb_active := true, ue_active := false,
    ip_from_iface := fun _ => none, ip_from_default_iface := none,
    svc_ok := fun _ => true }

/-- A concrete environment in which every supervisor call fails. -/
def envFail : Env :=
  { is_ipv4 := fun _ => false, enb_active := true, ue_active := false,
    ip_from_iface := fun _ => none, ip_from_default_iface := none,
    svc_ok := fun _ => false }

/-- A concrete configuration with every option absent. -/
def cfg0 : Config :=
  { enb_name := none, enb_mcc := none, enb_mnc := none,
    enb_rf_device_name := none, enb_rf_device_args := none,
    ue_usim_algo := none, ue_nas_apn := none, ue_device_name := none,
    ue_device_args := none, bind_address_subnet := none }

/-- A concrete state: installed and started, peer address learned, no
subscriber attached. -/
def st5 : CharmState :=
  { mme_addr := some "10.0.0.1", bind_addr := none, ue_usim_imsi := none,
    ue_usim_k := none, ue_usim_opc := none, installed := true,
    started := true, ue_attached := false }

/-- A concrete state with a peer address and `started` set, used to probe
what an install event does to pre-existing stored fields. -/
def stX : CharmState :=
  { mme_addr := some "10.0.0.1", bind_addr := some "192.168.1.5",
    ue_usim_imsi := none, ue_usim_k := none, ue_usim_opc := none,
    installed := true, started := true, ue_attached := false }

/-- A concrete template referencing a placeholder other than `command`. -/
def tmplBad : List TmplPart :=
  [TmplPart.text "ExecStart=", TmplPart.var "comand", TmplPart.text "\n"]

/-! ## Helper lemmas -/

/-- A list is a prefix (in the `isPrefixOf` sense) of itself followed by
anything. -/
theorem isPrefixOf_append_self (l x : List Char) : l.isPrefixOf (l ++ x) = true := by
  induction l with
  | nil => simp [List.isPrefixOf]
  | cons a as ih => simp [List.isPrefixOf, ih]

/-- An argument list containing `p ++ v` contains a flag with marker `p`. -/
theorem containsFlag_of_mem (args : List String) (p v : String)
    (h : (p ++ v) ∈ args) : containsFlag args p = true :=
  List.any_eq_true.2 ⟨p ++ v, h, isPrefixOf_append_self _ _⟩

/-- The base-station argument list carries the mme-address flag exactly
when the stored peer address is set (Python-truthy). -/
theorem enb_mme_flag (st : CharmState) (cfg : Config) :
    containsFlag (get_srsenb_args st cfg) "--enb.mme_addr=" = truthy st.mme_addr := by
  cases hm : truthy st.mme_addr <;> cases hb : truthy st.bind_addr <;>
    simp only [get_srsenb_args, hm, hb, Bool.false_eq_true, if_false, if_true]
  · rfl
  · rfl
  · exact containsFlag_of_mem _ _ (optStr st.mme_addr) (by simp)
  · exact containsFlag_of_mem _ _ (optStr st.mme_addr) (by simp)

/-- The base-station argument list carries the gtp bind-address flag
exactly when the stored bind address is set. -/
theorem enb_gtp_flag (st : CharmState) (cfg : Config) :
    containsFlag (get_srsenb_args st cfg) "--enb.gtp_bind_addr=" = truthy st.bind_addr := by
  cases hm : truthy st.mme_addr <;> cases hb : truthy st.bind_addr <;>
    simp only [get_srsenb_args, hm, hb, Bool.false_eq_true, if_false, if_true]
  · rfl
  · exact containsFlag_of_mem _ _ (optStr st.bind_addr) (by simp)
  · rfl
  · exact containsFlag_of_mem _ _ (optStr st.bind_addr) (by simp)

/-- The base-station argument list carries the s1c bind-address flag
exactly when the stored bind address is set. -/
theorem enb_s1c_flag (st : CharmState) (cfg : Config) :
    containsFlag (get_srsenb_args st cfg) "--enb.s1c_bind_addr=" = truthy st.bind_addr := by
  cases hm : truthy st.mme_addr <;> cases hb : truthy st.bind_addr <;>
    simp only [get_srsenb_args, hm, hb, Bool.false_eq_true, if_false, if_true]
  · rfl
  · exact containsFlag_of_mem _ _ (optStr st.bind_addr) (by simp)
  · rfl
  · exact containsFlag_of_mem _ _ (optStr st.bind_addr) (by simp)

/-- The UE argument list carries the usim identity flag exactly when the
stored subscriber identity is set (the guard of the source). -/
theorem ue_imsi_flag (st : CharmState) (cfg : Config) :
    containsFlag (get_srsue_args st cfg) "--usim.imsi=" = truthy st.ue_usim_imsi := by
  cases hi : truthy st.ue_usim_imsi <;>
    simp only [get_srsue_args, hi, Bool.false_eq_true, if_false, if_true]
  · rfl
  · exact containsFlag_of_mem _ _ (optStr st.ue_usim_imsi) (by simp)

/-- The UE argument list carries the usim key flag exactly when the stored
subscriber identity is set (the source guards all three on the
identity). -/
theorem ue_k_flag (st : CharmState) (cfg : Config) :
    containsFlag (get_srsue_args st cfg) "--usim.k=" = truthy st.ue_usim_imsi := by
  cases hi : truthy st.ue_usim_imsi <;>
    simp only [get_srsue_args, hi, Bool.false_eq_true, if_false, if_true]
  · rfl
  · exact containsFlag_of_mem _ _ (optStr st.ue_usim_k) (by simp)

/-- The UE argument list carries the usim operator-code flag exactly when
the stored subscriber identity is set. -/
theorem ue_opc_flag (st : CharmState) (cfg : Config) :
    containsFlag (get_srsue_args st cfg) "--usim.opc=" = truthy st.ue_usim_imsi := by
  cases hi : truthy st.ue_usim_imsi <;>
    simp only [get_srsue_args, hi, Bool.false_eq_true, if_false, if_true]
  · rfl
  · exact containsFlag_of_mem _ _ (optStr st.ue_usim_opc) (by simp)

/-- Length of the base-station argument list as a function of which
optional fields are set. -/
theorem enb_args_length (st : CharmState) (cfg : Config) :
    (get_srsenb_args st cfg).length =
      10 + (if truthy st.mme_addr then 1 else 0)
        + (if truthy st.bind_addr then 2 else 0) := by
  cases hm : truthy st.mme_addr <;> cases hb : truthy st.bind_addr <;>
    simp [get_srsenb_args, hm, hb]

/-- Length of the UE argument list as a function of whether the subscriber
identity is set. -/
theorem ue_args_length (st : CharmState) (cfg : Config) :
    (get_srsue_args st cfg).length =
      6 + (if truthy st.ue_usim_imsi then 3 else 0) := by
  cases hi : truthy st.ue_usim_imsi <;> simp [get_srsue_args, hi]

/-! ## Claim C1 -/

/-- Claim C1: for every incoming peer-address string that the IPv4 check
rejects, `_mme_relation_changed` leaves the whole stored state unchanged
and performs no side effect at all: no render, no restart, not even a
status update. -/
theorem invalid_peer_address_is_noop (env : Env) (cfg : Config)
    (st : CharmState) (s : String) (h : env.is_ipv4 (some s) = false) :
    step env cfg st (Event.mme_relation_changed (some (some s))) = (st, []) := by
  simp [step, mme_relation_changed, h]

/-- Witness for C1 at a concrete non-IPv4 address. -/
theorem invalid_peer_address_is_noop_witness :
    step env0 cfg0 initState (Event.mme_relation_changed (some (some "not-an-ip")))
      = (initState, []) :=
  invalid_peer_address_is_noop env0 cfg0 initState "not-an-ip" rfl

/-! ## Claim C10 -/

/-- Claim C10: when the triggering unit has no entry in the relation data,
`_mme_relation_changed` leaves every state field unchanged and performs no
render and no restart; its only effect is recomputing the status
message. -/
theorem missing_relation_entry_only_status (env : Env) (cfg : Config)
    (st : CharmState) :
    step env cfg st (Event.mme_relation_changed none)
      = (st, [Effect.set_status (get_current_status env st)]) := rfl

/-! ## Claim C3 -/

/-- Claim C3 (amended): after an install event, `installed` is true and
every other stored field is left exactly as it was before the event; the
stored state is not reset. -/
theorem install_sets_installed_only (env : Env) (cfg : Config) (st : CharmState) :
    (step env cfg st Event.install).1.installed = true ∧
    (step env cfg st Event.install).1.mme_addr = st.mme_addr ∧
    (step env cfg st Event.install).1.bind_addr = st.bind_addr ∧
    (step env cfg st Event.install).1.ue_usim_imsi = st.ue_usim_imsi ∧
    (step env cfg st Event.install).1.ue_usim_k = st.ue_usim_k ∧
    (step env cfg st Event.install).1.ue_usim_opc = st.ue_usim_opc ∧
    (step env cfg st Event.install).1.started = st.started ∧
    (step env cfg st Event.install).1.ue_attached = st.ue_attached :=
  ⟨rfl, rfl, rfl, rfl, rfl, rfl, rfl, rfl⟩

/-- Counterexample to C3 as stated: from a state with a learned peer
address and `started` set, the install event leaves `peerAddress` non-empty
and `started` true instead of resetting them to their defaults. -/
theorem install_does_not_reset_counterexample :
    (step env0 cfg0 stX Event.install).1.mme_addr = some "10.0.0.1" ∧
    (step env0 cfg0 stX Event.install).1.mme_addr ≠ none ∧
    (step env0 cfg0 stX Event.install).1.started = true := by
  refine ⟨rfl, ?_, rfl⟩
  decide

/-! ## Claim C7 -/

/-- Claim C7: the stored-state mutations of the start and attach handlers
do not depend on the environment at all — in particular not on whether the
supervisor calls succeed — so after a start with a failing
`service_start`, `started` is still recorded true, and after an attach
with a failing `service_restart`, `ue_attached` is still recorded true;
the supervisor calls are still issued. -/
theorem supervisor_failure_still_updates_state (env env' : Env) (cfg : Config)
    (st : CharmState) (i k o : String)
    (_h1 : env.svc_ok SRS_ENB_SERVICE = false)
    (_h2 : env.svc_ok SRS_UE_SERVICE = false) :
    (step env cfg st Event.start).1.started = true ∧
    (step env cfg st Event.start).1 = (step env' cfg st Event.start).1 ∧
    Effect.service_start SRS_ENB_SERVICE ∈ (step env cfg st Event.start).2 ∧
    (step env cfg st (Event.attach_ue i k o)).1.ue_attached = true ∧
    (step env cfg st (Event.attach_ue i k o)).1
      = (step env' cfg st (Event.attach_ue i k o)).1 ∧
    Effect.service_restart SRS_UE_SERVICE
      ∈ (step env cfg st (Event.attach_ue i k o)).2 := by
  refine ⟨rfl, rfl, ?_, rfl, rfl, ?_⟩ <;>
    simp [step, on_start, on_attach_ue_action, configure_srsue_service]

/-- Witness for C7 in an environment where every supervisor call fails. -/
theorem supervisor_failure_still_updates_state_witness :
    (step envFail cfg0 initState Event.start).1.started = true ∧
    (step envFail cfg0 initState Event.start).1
      = (step env0 cfg0 initState Event.start).1 ∧
    Effect.service_start SRS_ENB_SERVICE
      ∈ (step envFail cfg0 initState Event.start).2 ∧
    (step envFail cfg0 initState (Event.attach_ue "901700123456789" "k0" "opc0")).1.ue_attached
      = true ∧
    (step envFail cfg0 initState (Event.attach_ue "901700123456789" "k0" "opc0")).1
      = (step env0 cfg0 initState (Event.attach_ue "901700123456789" "k0" "opc0")).1 ∧
    Effect.service_restart SRS_UE_SERVICE
      ∈ (step envFail cfg0 initState (Event.attach_ue "901700123456789" "k0" "opc0")).2 :=
  supervisor_failure_still_updates_state envFail env0 cfg0 initState
    "901700123456789" "k0" "opc0" rfl rfl

/-! ## Claim C8 -/

/-- Counterexample to C8 as stated: a template referencing the undefined
placeholder `comand` renders without error, silently producing the
template's literal text — no `TemplateError` occurs. -/
theorem undefined_placeholder_renders_counterexample :
    renderTemplate [TmplPart.text "ExecStart=", TmplPart.var "comand"]
      "/build/srsenb/src/srsenb" = "ExecStart=" := by decide

/-- Claim C8 (amended): for every template all of whose placeholder
references are to names other than `command`, the unit renderer succeeds
and returns the template's literal text, substituting the empty string for
every undefined placeholder; rendering never fails on an undefined
placeholder, so no failure path suppressing the restart arises. -/
theorem undefined_placeholders_render_as_empty (t : List TmplPart) (cmd : String)
    (h : ∀ v, TmplPart.var v ∈ t → (v == "command") = false) :
    renderTemplate t cmd = textOnly t := by
  induction t with
  | nil => rfl
  | cons p rest ih =>
    cases p with
    | text s =>
      simp only [renderTemplate, textOnly]
      rw [ih (fun v hv => h v (List.mem_cons_of_mem _ hv))]
    | var v =>
      simp only [renderTemplate, textOnly, h v (List.mem_cons_self _ _),
        Bool.false_eq_true, if_false]
      rw [ih (fun v hv => h v (List.mem_cons_of_mem _ hv))]
      exact String.empty_append _

/-- Witness for C8 (amended) at a concrete template. -/
theorem undefined_placeholders_render_as_empty_witness :
    renderTemplate tmplBad "/build/srsenb/src/srsenb" = textOnly tmplBad :=
  undefined_placeholders_render_as_empty tmplBad "/build/srsenb/src/srsenb"
    (by
      intro v hv
      simp [tmplBad] at hv
      subst hv
      decide)

/-! ## Claim C5 -/

/-- Counterexample to C5 as stated: in the claimed scenario the derived
status text is the code's `srsenb started. mme: 10.0.0.1. `, not the
claimed `base-station started. peer: 10.0.0.1. `. -/
theorem status_text_counterexample :
    get_current_status env0 st5 = Status.active "srsenb started. mme: 10.0.0.1. " ∧
    get_current_status env0 st5 ≠ Status.active "base-station started. peer: 10.0.0.1. " := by
  constructor
  · decide
  · decide

/-- Claim C5 (amended): for a started state with a live base-station
service and a (truthy) peer address `m`, the status text is exactly
`srsenb started. mme: <m>. `, with `ue attached. ` appended precisely when
both `ue_attached` and UE-service liveness hold; the started-tier text
replaces the installed-tier text rather than concatenating with it. -/
theorem status_text_tiering (env : Env) (st : CharmState) (m : String)
    (hs : st.started = true) (ha : env.enb_active = true)
    (hm : st.mme_addr = some m) (hne : m.isEmpty = false) :
    get_current_status env st =
      Status.active (("srsenb started. " ++ ("mme: " ++ m ++ ". ")) ++
        (if st.ue_attached && env.ue_active then "ue attached. " else "")) := by
  simp only [get_current_status, hs, ha, hm, truthy, optStr, hne,
    Bool.not_false, Bool.true_and, if_true]
  cases hu : st.ue_attached && env.ue_active
  · simp [String.append_empty]
  · simp

/-- Witness for C5 (amended) at the concrete scenario of the claim. -/
theorem status_text_tiering_witness :
    get_current_status env0 st5 =
      Status.active (("srsenb started. " ++ ("mme: " ++ "10.0.0.1" ++ ". ")) ++
        (if st5.ue_attached && env0.ue_active then "ue attached. " else "")) :=
  status_text_tiering env0 st5 "10.0.0.1" rfl rfl rfl rfl

/-! ## Claim C2 -/

/-- Claim C2: the attach action stores all three subscriber fields and sets
`ue_attached`; the detach action clears all three and resets
`ue_attached`; and in every reachable state the subscriber triple is
either fully present or fully absent — never partially populated. -/
theorem subscriber_triple_atomicity :
    (∀ (env : Env) (cfg : Config) (st : CharmState) (i k o : String),
       (step env cfg st (Event.attach_ue i k o)).1.ue_usim_imsi = some i ∧
       (step env cfg st (Event.attach_ue i k o)).1.ue_usim_k = some k ∧
       (step env cfg st (Event.attach_ue i k o)).1.ue_usim_opc = some o ∧
       (step env cfg st (Event.attach_ue i k o)).1.ue_attached = true) ∧
    (∀ (env : Env) (cfg : Config) (st : CharmState),
       (step env cfg st Event.detach_ue).1.ue_usim_imsi = none ∧
       (step env cfg st Event.detach_ue).1.ue_usim_k = none ∧
       (step env cfg st Event.detach_ue).1.ue_usim_opc = none ∧
       (step env cfg st Event.detach_ue).1.ue_attached = false) ∧
    (∀ st : CharmState, Reachable st →
       (st.ue_usim_imsi = none ∧ st.ue_usim_k = none ∧ st.ue_usim_opc = none) ∨
       (st.ue_usim_imsi ≠ none ∧ st.ue_usim_k ≠ none ∧ st.ue_usim_opc ≠ none)) := by
  refine ⟨fun env cfg st i k o => ⟨rfl, rfl, rfl, rfl⟩,
          fun env cfg st => ⟨rfl, rfl, rfl, rfl⟩, ?_⟩
  intro st h
  induction h with
  | init => exact Or.inl ⟨rfl, rfl, rfl⟩
  | next env cfg st e hst ih =>
    cases e with
    | install => simpa [step, on_install] using ih
    | start => simpa [step, on_start] using ih
    | stop => simpa [step, on_stop] using ih
    | config_changed => simpa [step, on_config_changed] using ih
    | update_status => simpa [step, on_update_status] using ih
    | attach_ue i k o => exact Or.inr (by simp [step, on_attach_ue_action])
    | detach_ue => exact Or.inl (by simp [step, on_detach_ue_action])
    | remove_default_gw => simpa [step, on_remove_default_gw_action] using ih
    | mme_relation_changed data =>
      cases data with
      | none => simpa [step, mme_relation_changed] using ih
      | some addr =>
        by_cases hip : env.is_ipv4 addr = true
        · simpa [step, mme_relation_changed, hip] using ih
        · simp only [Bool.not_eq_true] at hip
          simpa [step, mme_relation_changed, hip] using ih

/-- Witness for C2: the triple invariant instantiated at a concrete
reachable state (the state after one attach action). -/
theorem subscriber_triple_atomicity_witness :
    ((step env0 cfg0 initState (Event.attach_ue "901700123456789" "k0" "opc0")).1.ue_usim_imsi = none ∧
     (step env0 cfg0 initState (Event.attach_ue "901700123456789" "k0" "opc0")).1.ue_usim_k = none ∧
     (step env0 cfg0 initState (Event.attach_ue "901700123456789" "k0" "opc0")).1.ue_usim_opc = none) ∨
    ((step env0 cfg0 initState (Event.attach_ue "901700123456789" "k0" "opc0")).1.ue_usim_imsi ≠ none ∧
     (step env0 cfg0 initState (Event.attach_ue "901700123456789" "k0" "opc0")).1.ue_usim_k ≠ none ∧
     (step env0 cfg0 initState (Event.attach_ue "901700123456789" "k0" "opc0")).1.ue_usim_opc ≠ none) :=
  subscriber_triple_atomicity.2.2 _
    (Reachable.next env0 cfg0 initState (Event.attach_ue "901700123456789" "k0" "opc0")
      Reachable.init)

/-! ## Claim C6 -/

/-- Counterexample to C6 as stated: delivering a start event to the
freshly initialized (never installed) state is a reachable transition and
yields a state with `started` true while `installed` is false. -/
theorem start_before_install_counterexample :
    Reachable (step env0 cfg0 initState Event.start).1 ∧
    (step env0 cfg0 initState Event.start).1.started = true ∧
    (step env0 cfg0 initState Event.start).1.installed = false :=
  ⟨Reachable.next env0 cfg0 initState Event.start Reachable.init, rfl, rfl⟩

/-- Claim C6 (amended): in every state reachable from the initial state by
a sequence of events in which the start event is only delivered while
`installed` is already true, `started` is true only if `installed` is
true. -/
theorem started_only_if_installed (st : CharmState) (h : GuardedReachable st) :
    st.started = true → st.installed = true := by
  induction h with
  | init => intro hs; exact absurd hs (by decide)
  | next env cfg st e hst hguard ih =>
    cases e with
    | install => intro _; rfl
    | start => intro _; exact hguard rfl
    | stop => intro hs; exact absurd hs (by simp [step, on_stop])
    | config_changed =>
      intro hs
      simp only [step, on_config_changed] at hs ⊢
      exact ih hs
    | update_status => intro hs; exact ih hs
    | attach_ue i k o =>
      intro hs
      simp only [step, on_attach_ue_action] at hs ⊢
      exact ih hs
    | detach_ue =>
      intro hs
      simp only [step, on_detach_ue_action] at hs ⊢
      exact ih hs
    | remove_default_gw => intro hs; exact ih hs
    | mme_relation_changed data =>
      cases data with
      | none => intro hs; exact ih hs
      | some addr =>
        by_cases hip : env.is_ipv4 addr = true
        · intro hs
          simp only [step, mme_relation_changed, hip, if_true] at hs ⊢
          exact ih hs
        · simp only [Bool.not_eq_true] at hip
          intro hs
          simp only [step, mme_relation_changed, hip] at hs ⊢
          exact ih hs

/-- Witness for C6 (amended): the state reached by install followed by
start satisfies the guarded-reachability discipline and the conclusion. -/
theorem started_only_if_installed_witness :
    (step env0 cfg0 (step env0 cfg0 initState Event.install).1 Event.start).1.installed = true :=
  started_only_if_installed _
    (GuardedReachable.next env0 cfg0 (step env0 cfg0 initState Event.install).1 Event.start
      (GuardedReachable.next env0 cfg0 initState Event.install GuardedReachable.init
        (fun hse => Event.noConfusion hse))
      (fun _ => rfl))
    rfl

/-! ## Claim C4 -/

/-- Claim C4: for every state and static config, the base-station argument
list contains the mme-address flag if and only if the peer address is set
(Python-truthy), and contains both bind-address flags (gtp and s1c) if and
only if the bind address is set. -/
theorem flag_presence_laws (st : CharmState) (cfg : Config) :
    containsFlag (get_srsenb_args st cfg) "--enb.mme_addr=" = truthy st.mme_addr ∧
    containsFlag (get_srsenb_args st cfg) "--enb.gtp_bind_addr=" = truthy st.bind_addr ∧
    containsFlag (get_srsenb_args st cfg) "--enb.s1c_bind_addr=" = truthy st.bind_addr :=
  ⟨enb_mme_flag st cfg, enb_gtp_flag st cfg, enb_s1c_flag st cfg⟩

/-! ## Claim C9 -/

/-- Claim C9: whenever an optional state field is missing, the built
argument list carries no flag for it at all — no empty and no placeholder
flag ever appears for a missing field — and is strictly shorter than the
list built with that field present: one flag shorter for the peer address,
two for the bind address, three for the subscriber triple. -/
theorem missing_fields_fewer_flags (st : CharmState) (cfg : Config) :
    (truthy st.mme_addr = false →
       containsFlag (get_srsenb_args st cfg) "--enb.mme_addr=" = false ∧
       ∀ v : String, truthy (some v) = true →
         (get_srsenb_args st cfg).length <
           (get_srsenb_args { st with mme_addr := some v } cfg).length) ∧
    (truthy st.bind_addr = false →
       containsFlag (get_srsenb_args st cfg) "--enb.gtp_bind_addr=" = false ∧
       containsFlag (get_srsenb_args st cfg) "--enb.s1c_bind_addr=" = false ∧
       ∀ v : String, truthy (some v) = true →
         (get_srsenb_args st cfg).length <
           (get_srsenb_args { st with bind_addr := some v } cfg).length) ∧
    (truthy st.ue_usim_imsi = false →
       containsFlag (get_srsue_args st cfg) "--usim.imsi=" = false ∧
       containsFlag (get_srsue_args st cfg) "--usim.k=" = false ∧
       containsFlag (get_srsue_args st cfg) "--usim.opc=" = false ∧
       ∀ i k o : String, truthy (some i) = true →
         (get_srsue_args st cfg).length <
           (get_srsue_args { st with ue_usim_imsi := some i, ue_usim_k := some k,
                                     ue_usim_opc := some o } cfg).length) := by
  refine ⟨fun hm => ⟨?_, fun v hv => ?_⟩,
          fun hb => ⟨?_, ?_, fun v hv => ?_⟩,
          fun hi => ⟨?_, ?_, ?_, fun i k o hik => ?_⟩⟩
  · rw [enb_mme_flag]; exact hm
  · simp only [enb_args_length, hm, hv]
    cases hb' : truthy st.bind_addr <;> simp [hb']
  · rw [enb_gtp_flag]; exact hb
  · rw [enb_s1c_flag]; exact hb
  · simp only [enb_args_length, hb, hv]
    cases hm' : truthy st.mme_addr <;> simp [hm']
  · rw [ue_imsi_flag]; exact hi
  · rw [ue_k_flag]; exact hi
  · rw [ue_opc_flag]; exact hi
  · simp only [ue_args_length, hi, hik]
    simp

/-- Witness for C9: concretely, the fresh state has no mme-address and no
usim flags, and setting those fields strictly lengthens the argument
lists. -/
theorem missing_fields_fewer_flags_witness :
    containsFlag (get_srsenb_args initState cfg0) "--enb.mme_addr=" = false ∧
    (get_srsenb_args initState cfg0).length <
      (get_srsenb_args { initState with mme_addr := some "10.0.0.1" } cfg0).length ∧
    containsFlag (get_srsue_args initState cfg0) "--usim.imsi=" = false ∧
    (get_srsue_args initState cfg0).length <
      (get_srsue_args { initState with ue_usim_imsi := some "901700123456789",
                                       ue_usim_k := some "k0",
                                       ue_usim_opc := some "opc0" } cfg0).length :=
  ⟨((missing_fields_fewer_flags initState cfg0).1 rfl).1,
   ((missing_fields_fewer_flags initState cfg0).1 rfl).2 "10.0.0.1" (by decide),
   ((missing_fields_fewer_flags initState cfg0).2.2 rfl).1,
   ((missing_fields_fewer_flags initState cfg0).2.2 rfl).2.2.2
     "901700123456789" "k0" "opc0" (by decide)⟩

end Charm
